import Mathlib

/-!
Verification development for the drop-check teaching repository
(`src/main.rs`).  The repository is a sequence of small Rust scenarios that
exhibit the language's automatic-destruction semantics: reverse-declaration
destruction order, compiler-synthesized drop glue for owned fields, the
drop-check borrow rule, and the `#[may_dangle]` opt-out.

The scenarios themselves (the bindings, the structures, their `Drop`
implementations and the exact strings they print) are translated directly
from `src/main.rs`.  The three operations named by the specification
(`computeDestructionOrder`, `checkValidity`, `simulateDangling`) are not
code in the repository - they describe the analysis the Rust compiler
performs - so they are modelled from the specification's own algorithm and
checked against the embedded scenarios.
-/

namespace DropCheck

/-- A line template printed by a custom destructor body.
`lit` is a plain string literal (a `println!` with no interpolation).
`debugField pre j validRepr` is a `println!` that formats the data read
through field `j` of the value being dropped: if that data is still valid
it prints `validRepr` (the value the source would print); if the data has
been invalidated the printed text is an unspecified bit pattern, supplied
by the `oracle` parameter of the trace semantics (spec section 7: reading
an opted-out field post-invalidation "produces an arbitrary/unspecified
bit pattern"). -/
inductive Tmpl where
  | lit (s : String)
  | debugField (pre : String) (j : Nat) (validRepr : String)

mutual

/-- A value of the ownership model (spec section 3).  `mk od fs`: `od` is
the custom destructor (`some acts` when the type has a `Drop`
implementation, with `acts` the observable actions of its body; `none` for
a trivial, glue-only drop), and `fs` are the declared fields in
declaration order. -/
inductive Value where
  | mk : Option (List Action) → List Field → Value

/-- One observable action of a custom destructor body.
`print t` is a `println!`.  `dropSlot c optOut` is a manual
`ptr::drop_in_place` on a raw slot whose current content is `c`
(`optOut` records whether the slot's generic parameter carries the
`#[may_dangle]` opt-out). -/
inductive Action where
  | print : Tmpl → Action
  | dropSlot : Value → Bool → Action

/-- A field of a value.
`owned v`: an owned field (drop glue recurses into it).
`refF target optOut`: a reference field borrowing the binding named
`target`; `optOut` is true when the owner's destructor carries
`#[may_dangle]` for this field's lifetime/type parameter.
`rawSlot c optOut marker`: a raw, non-owning slot (a `*mut T`) currently
holding `c`; `optOut` as above; `marker` is the structural-ownership
marker (the `PhantomData<T>` pattern, spec section 9) that restores the
ownership edge for checking purposes. -/
inductive Field where
  | owned : Value → Field
  | refF : String → Bool → Field
  | rawSlot : Value → Bool → Bool → Field

end

/-- A destruction record: which binding's value was destroyed, the value it
held, and whether the destruction was explicitly requested by the program
(`drop(x)`) rather than automatic (scope exit / end of statement). -/
structure DRec where
  name : String
  val : Value
  explicitD : Bool

mutual

/-- All reference targets occurring in a value, collected through owned
fields and raw slots. -/
def valueRefTargets : Value → List String
  | .mk _ fs => fieldsRefTargets fs

def fieldsRefTargets : List Field → List String
  | [] => []
  | f :: rest => fieldRefTargets f ++ fieldsRefTargets rest

def fieldRefTargets : Field → List String
  | .owned v => valueRefTargets v
  | .refF t _ => [t]
  | .rawSlot c _ _ => valueRefTargets c

end

/-- Render a destructor print line.  `destroyed` is the set of binding
names already destroyed when the destructor runs, `oracle` the unspecified
bit pattern read back through invalidated data, `fs` the fields of the
value being dropped. -/
def render (destroyed : List String) (oracle : String) (fs : List Field) :
    Tmpl → String
  | .lit s => s
  | .debugField pre j validRepr =>
    pre ++
      match fs.get? j with
      | some (.refF target _) =>
        if destroyed.contains target then oracle else validRepr
      | some (.rawSlot c _ _) =>
        if (valueRefTargets c).any (fun t => destroyed.contains t) then
          oracle
        else validRepr
      | _ => validRepr

mutual

/-- Observable event lines emitted when a value is destroyed: the custom
destructor body first (if any), then the drop glue over the declared
fields in declaration order (src/main.rs `drop_glue1`..`drop_glue3`). -/
def dropEvents (destroyed : List String) (oracle : String) : Value → List String
  | .mk od fs =>
    (match od with
     | some acts => actionsEvents destroyed oracle fs acts
     | none => []) ++ fieldsEvents destroyed oracle fs

def actionsEvents (destroyed : List String) (oracle : String)
    (fs : List Field) : List Action → List String
  | [] => []
  | a :: rest =>
    actionEvents destroyed oracle fs a ++ actionsEvents destroyed oracle fs rest

def actionEvents (destroyed : List String) (oracle : String)
    (fs : List Field) : Action → List String
  | .print t => [render destroyed oracle fs t]
  | .dropSlot c _ => dropEvents destroyed oracle c

def fieldsEvents (destroyed : List String) (oracle : String) :
    List Field → List String
  | [] => []
  | f :: rest =>
    fieldEvents destroyed oracle f ++ fieldsEvents destroyed oracle rest

/-- Drop glue visits owned fields only: references and raw slots carry no
destruction responsibility (src/main.rs `drop_glue2`, `phantom1`). -/
def fieldEvents (destroyed : List String) (oracle : String) :
    Field → List String
  | .owned v => dropEvents destroyed oracle v
  | .refF _ _ => []
  | .rawSlot _ _ _ => []

end

/-- A scope environment: bindings in declaration order.  The second
component is `none` while the binding is declared-but-uninitialized, and
again after its value has been moved out or explicitly dropped. -/
abbrev Env := List (String × Option Value)

/-- Look up the value currently held by binding `n`. -/
def getVal (env : Env) (n : String) : Option Value :=
  match env with
  | [] => none
  | (m, w) :: rest => if m = n then w else getVal rest n

/-- Assign value `v` to binding `n`, keeping its declaration position; a
name not yet declared is appended (it is declared by the initializing
`let`). -/
def setVal (n : String) (v : Value) : Env → Env
  | [] => [(n, some v)]
  | (m, w) :: rest =>
    if m = n then (m, some v) :: rest else (m, w) :: setVal n v rest

/-- Empty the slot of binding `n` (the value was moved out or explicitly
dropped), keeping its declaration position. -/
def clearVal (n : String) : Env → Env
  | [] => []
  | (m, w) :: rest =>
    if m = n then (m, none) :: rest else (m, w) :: clearVal n rest

/-- Empty the slots of all bindings named in `ns`. -/
def clearAll (ns : List String) (env : Env) : Env :=
  ns.foldl (fun e n => clearVal n e) env

/-- Statements of the embedded scenarios (one constructor per statement
form occurring in src/main.rs).
`declare n` is an uninitialized `let n;`.
`init n v moves` is `n = v` or `let n = v;` - it moves the bindings named
in `moves` into `v`.
`tempExpr n v moves` is a bare expression statement producing an unnamed
temporary `v` (given the synthetic name `n`), destroyed at the end of its
own statement; `moves` as above.
`explicitDrop n` is `drop(n)`.
`echoLine s` is a plain `println!` in the function body. -/
inductive Stmt where
  | declare (n : String)
  | init (n : String) (v : Value) (moves : List String)
  | tempExpr (n : String) (v : Value) (moves : List String)
  | explicitDrop (n : String)
  | echoLine (s : String)

/-- Execute one statement: new (environment, destruction records) plus the
event lines it emits.  Temporaries are destroyed at the end of their own
statement; explicit drops destroy immediately and are recorded as
explicit. -/
def stepStmt (oracle : String) (st : Env × List DRec) :
    Stmt → (Env × List DRec) × List String
  | .declare n => ((st.1 ++ [(n, none)], st.2), [])
  | .init n v moves => ((setVal n v (clearAll moves st.1), st.2), [])
  | .tempExpr n v moves =>
    ((clearAll moves st.1, st.2 ++ [⟨n, v, false⟩]),
      dropEvents (st.2.map DRec.name) oracle v)
  | .explicitDrop n =>
    match getVal st.1 n with
    | some v =>
      ((clearVal n st.1, st.2 ++ [⟨n, v, true⟩]),
        dropEvents (st.2.map DRec.name) oracle v)
    | none => (st, [])
  | .echoLine s => (st, [s])

/-- Scope exit: destroy the remaining initialized bindings.  The argument
list is the environment already reversed, so bindings die in reverse
declaration order; each destruction sees every earlier destruction in the
`destroyed` set threaded through the records. -/
def exitAll (oracle : String) : List (String × Option Value) → List DRec →
    List DRec × List String
  | [], recs => (recs, [])
  | (_, none) :: rest, recs => exitAll oracle rest recs
  | (n, some v) :: rest, recs =>
    let out := dropEvents (recs.map DRec.name) oracle v
    let (recs2, out2) := exitAll oracle rest (recs ++ [⟨n, v, false⟩])
    (recs2, out ++ out2)

/-- Event lines emitted by running the remaining statements from state
`st` and then leaving the scope. -/
def runFrom (oracle : String) (st : Env × List DRec) :
    List Stmt → List String
  | [] => (exitAll oracle st.1.reverse st.2).2
  | s :: ss => (stepStmt oracle st s).2 ++ runFrom oracle (stepStmt oracle st s).1 ss

/-- Destruction records produced by running the remaining statements from
state `st` and then leaving the scope, in destruction order. -/
def recsFrom (oracle : String) (st : Env × List DRec) :
    List Stmt → List DRec
  | [] => (exitAll oracle st.1.reverse st.2).1
  | s :: ss => recsFrom oracle (stepStmt oracle st s).1 ss

/-- The full event trace of a scenario.  `oracle` is the bit pattern read
back through invalidated data, modelling the machine state of one
particular run; scenarios that never read invalidated data do not depend
on it. -/
def runProgram (oracle : String) (p : List Stmt) : List String :=
  runFrom oracle ([], []) p

/-- The destruction records of a scenario, in destruction order.  They do
not depend on the oracle, so it is instantiated with the empty string. -/
def execRecords (p : List Stmt) : List DRec :=
  recsFrom "" ([], []) p

/-- The sequence of destroyed bindings of a scenario, in destruction
order. -/
def destructionOrder (p : List Stmt) : List String :=
  (execRecords p).map DRec.name

/-- True when the binding `target` is destroyed strictly before position
`i` of the destruction-record sequence, i.e. before the destructor of the
record at `i` runs. -/
def destroyedBefore (recs : List DRec) (target : String) (i : Nat) : Bool :=
  (recs.take i).any (fun r => r.name == target)

/-- True when the binding `target` is destroyed strictly before position
`i` by an explicit `drop` request of the program. -/
def destroyedExplicitlyBefore (recs : List DRec) (target : String)
    (i : Nat) : Bool :=
  (recs.take i).any (fun r => r.name == target && r.explicitD)

mutual

/-- Modelled from the spec: the per-value walk of `checkValidity`
(spec section 4.1), which is not code in the repository - it describes the
drop-check analysis the Rust compiler performs.  `under` is true when the
current node is reached from a value with a custom destructor without
crossing an opted-out field; a node's own custom destructor also puts its
fields under the check (rule 1).  A value with no custom destructor does
not activate the check for its own fields but the walk still recurses into
owned sub-values (rule 2). -/
def nodeViol (recs : List DRec) (i : Nat) (ex : Bool) (under : Bool) :
    Value → Bool
  | .mk od fs => fieldsViol recs i ex (under || od.isSome) fs

def fieldsViol (recs : List DRec) (i : Nat) (ex : Bool) (under : Bool) :
    List Field → Bool
  | [] => false
  | f :: rest =>
    fieldViol recs i ex under f || fieldsViol recs i ex under rest

/-- Modelled from the spec: rule 1 for a single field.  A reference field
under the check violates validity when its referent is destroyed strictly
before the owner's destructor runs, unless the field is opted out and both
the owner and the referent were destroyed automatically (rule 3: an
explicit destruction request of the owner or of the referent is checked as
if no opt-out existed).  A raw slot with the structural-ownership marker
is walked as an owned field; crossing its opt-out deactivates the outer
check; an unmarked raw slot is a bare non-owning handle and enforces no
dependency (spec section 9). -/
def fieldViol (recs : List DRec) (i : Nat) (ex : Bool) (under : Bool) :
    Field → Bool
  | .refF target optOut =>
    under && destroyedBefore recs target i &&
      (!optOut || ex || destroyedExplicitlyBefore recs target i)
  | .owned v => nodeViol recs i ex under v
  | .rawSlot c optOut marker =>
    if marker then nodeViol recs i ex (if optOut then false else under) c
    else false

end

/-- Outcome of `checkValidity` (spec section 4.1). -/
inductive CheckResult where
  | accept
  | reject (reason : String)
deriving DecidableEq

/-- The reason string fixed by the spec for a rule-1 violation. -/
def violReason : String :=
  "referent destroyed before dependent custom destructor"

/-- Scan the destruction records from position `i` for a rule-1
violation. -/
def anyViolFrom (all : List DRec) : List DRec → Nat → Bool
  | [], _ => false
  | r :: rest, i =>
    nodeViol all i r.explicitD false r.val || anyViolFrom all rest (i + 1)

/-- Modelled from the spec: `checkValidity` (spec section 4.1), the
validator the Rust compiler embodies; it is not code in the repository.
It computes the destruction order of the configuration and Rejects with
the fixed reason if rule 1 is violated anywhere, otherwise Accepts. -/
def checkValidity (p : List Stmt) : CheckResult :=
  let recs := execRecords p
  if anyViolFrom recs recs 0 then .reject violReason else .accept

/-- A flag produced by `simulateDangling` for one destructor
invocation. -/
inductive DFlag where
  | unsoundIfExecuted (who : String)
  | rejectedByModel (who : String)
deriving DecidableEq

/-- True when the content of a raw slot reaches, through some reference,
data already destroyed before position `i`. -/
def contentDanglingAt (recs : List DRec) (i : Nat) (c : Value) : Bool :=
  (valueRefTargets c).any (fun t => destroyedBefore recs t i)

/-- The flag for a dereference of invalidated data: unsound-if-executed
when the field was opted out (the implementer asserted safety that the
model cannot verify), rejected-by-model otherwise (spec section 4.1,
`simulateDangling`). -/
def flagFor (optOut : Bool) (who : String) : DFlag :=
  if optOut then .unsoundIfExecuted who else .rejectedByModel who

/-- Flags for a destructor body action that reads through field `j`. -/
def derefFlag (recs : List DRec) (i : Nat) (who : String)
    (fs : List Field) (j : Nat) : List DFlag :=
  match fs.get? j with
  | some (.refF target optOut) =>
    if destroyedBefore recs target i then [flagFor optOut who] else []
  | some (.rawSlot c optOut _) =>
    if contentDanglingAt recs i c then [flagFor optOut who] else []
  | _ => []

mutual

/-- Modelled from the spec: the per-value walk of `simulateDangling`
(spec section 4.1), which is not code in the repository.  For each
destructor invocation reachable through the ownership structure, each
dereference performed by its body is flagged when it reads already
invalidated data. -/
def nodeFlags (recs : List DRec) (i : Nat) (who : String) :
    Value → List DFlag
  | .mk od fs =>
    (match od with
     | some acts => actionsFlags recs i who fs acts
     | none => []) ++ fieldsFlags recs i who fs

def actionsFlags (recs : List DRec) (i : Nat) (who : String)
    (fs : List Field) : List Action → List DFlag
  | [] => []
  | a :: rest =>
    actionFlags recs i who fs a ++ actionsFlags recs i who fs rest

def actionFlags (recs : List DRec) (i : Nat) (who : String)
    (fs : List Field) : Action → List DFlag
  | .print (.lit _) => []
  | .print (.debugField _ j _) => derefFlag recs i who fs j
  | .dropSlot c optOut =>
    if contentDanglingAt recs i c then [flagFor optOut who] else []

def fieldsFlags (recs : List DRec) (i : Nat) (who : String) :
    List Field → List DFlag
  | [] => []
  | f :: rest => fieldFlags recs i who f ++ fieldsFlags recs i who rest

/-- Destructor invocations reached by glue: owned fields and raw slots
with the structural-ownership marker.  An unmarked raw slot is invisible
to the model's ownership structure. -/
def fieldFlags (recs : List DRec) (i : Nat) (who : String) :
    Field → List DFlag
  | .owned v => nodeFlags recs i who v
  | .refF _ _ => []
  | .rawSlot c _ marker => if marker then nodeFlags recs i who c else []

end

/-- Modelled from the spec: `simulateDangling` (spec section 4.1), not
code in the repository.  It walks every destructor invocation of the
configuration in destruction order and collects the flags. -/
def flagsFrom (all : List DRec) : List DRec → Nat → List DFlag
  | [], _ => []
  | r :: rest, i => nodeFlags all i r.name r.val ++ flagsFrom all rest (i + 1)

/-- Modelled from the spec: top level of `simulateDangling`. -/
def simulateDangling (p : List Stmt) : List DFlag :=
  let recs := execRecords p
  flagsFrom recs recs 0

/-- Modelled from the spec: a binding as seen by
`computeDestructionOrder` (spec section 4.1), carrying its declaration
position and, separately, the position of the statement that initializes
it, which the destruction order must ignore. -/
structure BindingB where
  name : String
  declPos : Nat
  initPos : Nat

/-- Insert a binding into a list sorted by strictly descending declaration
position. -/
def insertByDeclDesc (b : BindingB) : List BindingB → List BindingB
  | [] => [b]
  | x :: xs =>
    if x.declPos ≤ b.declPos then b :: x :: xs
    else x :: insertByDeclDesc b xs

/-- Sort bindings by descending declaration position (latest declaration
destroyed first). -/
def sortByDeclDesc : List BindingB → List BindingB
  | [] => []
  | b :: bs => insertByDeclDesc b (sortByDeclDesc bs)

/-- Modelled from the spec: `computeDestructionOrder` (spec section 4.1),
not code in the repository.  Top-level bindings are destroyed in the
reverse of their declaration order, regardless of the order in which they
were initialized: only `declPos` is consulted. -/
def computeDestructionOrder (sc : List BindingB) : List String :=
  (sortByDeclDesc sc).map BindingB.name

/-! Scenario embeddings, translated from src/main.rs.  Each `..._stmts`
definition is the body of the correspondingly named function; values carry
the exact strings their `Drop` implementations print.  Configurations the
compiler rejects appear in the source only as commented-out statements
(the comments say uncommenting them produces the error); those are
embedded as `..._cfg` definitions. -/

/-- Struct `A` of `drop_order` (src/main.rs lines 29-35). -/
def dropOrderA : Value :=
  .mk (some [.print (.lit "A is dropped last because its declaration is the first")]) []

/-- Struct `B` of `drop_order` (src/main.rs lines 30-40). -/
def dropOrderB : Value :=
  .mk (some [.print (.lit "B is dropped first although its initialization is earlier than A")]) []

/-- Body of `drop_order` (src/main.rs lines 41-43): `let a; let b = B();
a = A();`. -/
def drop_order_stmts : List Stmt :=
  [.declare "a", .init "b" dropOrderB [], .init "a" dropOrderA []]

/-- Struct `B1` of `drop_glue1` (src/main.rs lines 67-72). -/
def glue1B1 : Value :=
  .mk (some [.print (.lit "Drop for B1 called as part of the drop glue of A"),
             .print (.lit "No drop glue for B1 since it has no field")]) []

/-- Struct `B2` of `drop_glue1` (src/main.rs lines 73-78). -/
def glue1B2 : Value :=
  .mk (some [.print (.lit "Drop for B2 called as part of the drop glue of A"),
             .print (.lit "No drop glue for B2 since it has no field")]) []

/-- Struct `A(B1, B2)` of `drop_glue1` (src/main.rs lines 54-66). -/
def glue1A : Value :=
  .mk (some [.print (.lit "Drop for A called"),
             .print (.lit "The following is the drop glue of A")])
    [.owned glue1B1, .owned glue1B2]

/-- Body of `drop_glue1` (src/main.rs line 80): the bare temporary
`A(B1(), B2());`. -/
def drop_glue1_stmts : List Stmt :=
  [.tempExpr "tempA" glue1A []]

/-- Struct `B1` of `drop_glue2` (src/main.rs lines 95-100); note the
second line is a `print!` without newline in the source. -/
def glue2B1 : Value :=
  .mk (some [.print (.lit "Drop for B1 called NOT as part of the drop glue of A"),
             .print (.lit "Instead, this is called because its owner b1 is dropped")]) []

/-- Struct `B2` of `drop_glue2` (src/main.rs lines 101-106). -/
def glue2B2 : Value :=
  .mk (some [.print (.lit "Drop for B2 called as part of the drop glue of A")]) []

/-- Struct `A<'a>(&'a B1, B2)` of `drop_glue2` (src/main.rs lines
87-94): first field a reference to the binding `b1`, second field
owned. -/
def glue2A : Value :=
  .mk (some [.print (.lit "Drop for A called")])
    [.refF "b1" false, .owned glue2B2]

/-- Body of `drop_glue2` (src/main.rs lines 108-109): `let b1 = B1();
A(&b1, B2());`. -/
def drop_glue2_stmts : List Stmt :=
  [.init "b1" glue2B1 [], .tempExpr "tempA" glue2A []]

/-- Struct `C1` of `drop_glue3` (src/main.rs lines 130-134). -/
def glue3C1 : Value :=
  .mk (some [.print (.lit "Drop for C1 as part of the drop glue of B1")]) []

/-- Struct `C2` of `drop_glue3` (src/main.rs lines 135-139); its message
says C1 because the source's `Drop for C2` prints that exact string. -/
def glue3C2 : Value :=
  .mk (some [.print (.lit "Drop for C1 as part of the drop glue of B1")]) []

/-- Struct `B1(C1, C2)` of `drop_glue3` (src/main.rs lines 116-129). -/
def glue3B1 : Value :=
  .mk (some [.print (.lit "Drop for B1 as part of the drop glue of A"),
             .print (.lit "because the ownership of b1 is transferred to A")])
    [.owned glue3C1, .owned glue3C2]

/-- Struct `A(B1)` of `drop_glue3` (src/main.rs lines 115-123). -/
def glue3A : Value :=
  .mk (some [.print (.lit "Drop for A called")]) [.owned glue3B1]

/-- Body of `drop_glue3` (src/main.rs lines 141-142): `let b1 =
B1(C1(), C2()); A(b1);` - `b1` is moved into the temporary. -/
def drop_glue3_stmts : List Stmt :=
  [.init "b1" glue3B1 [], .tempExpr "tempA" glue3A ["b1"]]

/-- Body of `may_dangle1` (src/main.rs lines 155-161): `struct A<'a>(&'a
B); struct B(i32);` - neither has a `Drop` implementation -
`let a; let b = B(42); a = A(&b); drop(b);`. -/
def may_dangle1_stmts : List Stmt :=
  [.declare "a", .init "b" (.mk none []) [],
   .init "a" (.mk none [.refF "b" false]) [], .explicitDrop "b"]

/-- Configuration of `may_dangle2` (src/main.rs lines 171-182): `B<'a>(&'a
A)` has an empty `Drop` implementation without opt-out; the statements
`let mut b; let a = A(42); b = B(&a);` are commented out in the source
because the compiler rejects them. -/
def may_dangle2_cfg : List Stmt :=
  [.declare "b", .init "a" (.mk none []) [],
   .init "b" (.mk (some []) [.refF "a" false]) []]

/-- Body of `may_dangle3` (src/main.rs lines 192-202): as `may_dangle2`
but the empty `Drop` carries `#[may_dangle] 'a`, so the same statements
compile. -/
def may_dangle3_stmts : List Stmt :=
  [.declare "b", .init "a" (.mk none []) [],
   .init "b" (.mk (some []) [.refF "a" true]) []]

/-- Body of `may_dangle4` (src/main.rs lines 211-222): `B<T>` with
`#[may_dangle] T`, instantiated at `T = &A`; same shape as
`may_dangle3`. -/
def may_dangle4_stmts : List Stmt :=
  [.declare "b", .init "a" (.mk none []) [],
   .init "b" (.mk (some []) [.refF "a" true]) []]

/-- Struct `B<T: Debug>` of `may_dangle5` (src/main.rs lines 231-239):
its destructor prints `self.0` with the `Debug` format; `T` is the
opted-out reference `&Box<i32>` to binding `a`, whose valid value prints
as `42`. -/
def md5B : Value :=
  .mk (some [.print (.debugField "" 0 "42")]) [.refF "a" true]

/-- Body of `may_dangle5` (src/main.rs lines 241-243): `let mut b; let a =
Box::new(42); b = B(&a);` - `a` is dropped first at scope exit, so the
destructor of `b` reads freed memory. -/
def may_dangle5_stmts : List Stmt :=
  [.declare "b", .init "a" (.mk none []) [], .init "b" md5B []]

/-- Body of `may_dangle6` as written (src/main.rs lines 259-261): the two
explicit drops are commented out, so only automatic destruction occurs. -/
def may_dangle6_stmts : List Stmt :=
  [.declare "b", .init "a" (.mk none []) [],
   .init "b" (.mk (some []) [.refF "a" true]) []]

/-- Configuration of `may_dangle6` with the commented-out lines
(src/main.rs lines 262-264) active: `drop(a); drop(b);` - explicit
destruction requests that the compiler rejects despite the opt-out. -/
def may_dangle6_cfg : List Stmt :=
  may_dangle6_stmts ++ [.explicitDrop "a", .explicitDrop "b"]

/-- Configuration of `may_dangle6` with only the referent dropped
explicitly: `drop(a);` alone already makes the compiler reject the
program, since an explicit destruction request must satisfy rule 1 as if
no opt-out existed. -/
def may_dangle6_cfgA : List Stmt :=
  may_dangle6_stmts ++ [.explicitDrop "a"]

/-- Struct `A` of `may_dangle7` (src/main.rs lines 280-284). -/
def md7A : Value :=
  .mk (some [.print (.lit "A dropped as part of the drop glue of B")]) []

/-- Body of `may_dangle7` (src/main.rs lines 286-288): `let mut b; let a =
A(); b = B(a);` - `a` is moved into `b`, which owns it. -/
def may_dangle7_stmts : List Stmt :=
  [.declare "b", .init "a" md7A [],
   .init "b" (.mk (some [.print (.lit "B dropped")]) [.owned md7A]) ["a"]]

/-- `MyBox<&String>` of `phantom1` after `move_in(&s)` (src/main.rs lines
297-320): the raw slot holds the reference to `s`; the destructor body
only deallocates - `ptr::drop_in_place` does nothing to a reference
(source comment, lines 303-304) - so it performs no observable action and
no read through the stored reference. -/
def phantom1Box : Value :=
  .mk (some []) [.rawSlot (.mk none [.refF "s" false]) true false]

/-- Body of `phantom1` (src/main.rs lines 322-326): `let mut a =
MyBox::new(); let s = String::from("233"); a.move_in(&s); drop(s);` -
the `move_in` call is modelled as re-initializing `a` with the filled
box. -/
def phantom1_stmts : List Stmt :=
  [.init "a" (.mk (some []) [.rawSlot (.mk none []) true false]) [],
   .init "s" (.mk none []) [],
   .init "a" phantom1Box [],
   .explicitDrop "s"]

/-- Struct `PrintOnDrop<'s>(&'s str)` of `phantom2` (src/main.rs lines
337-343): its destructor prints a literal line, then formats the borrowed
string - `Hello world` while `s` is alive, an unspecified pattern once
`s` has been invalidated. -/
def phantom2Pod : Value :=
  .mk (some [.print (.lit "PrintOnDrop dropped as part of drop glue of MyBox"),
             .print (.debugField "visit a dangling reference: " 0 "Hello world")])
    [.refF "s" false]

/-- `MyBox<PrintOnDrop>` of `phantom2` after `move_in` (src/main.rs lines
336-362): the unmarked raw slot holds the `PrintOnDrop`; the opted-out
destructor prints and then runs `ptr::drop_in_place` on the slot, which
executes the content's destructor. -/
def phantom2Box : Value :=
  .mk (some [.print (.lit "MyBox dropped"), .dropSlot phantom2Pod true])
    [.rawSlot phantom2Pod true false]

/-- Body of `phantom2` (src/main.rs lines 364-369). -/
def phantom2_stmts : List Stmt :=
  [.init "a" (.mk (some [.print (.lit "MyBox dropped"),
                         .dropSlot (.mk none []) true])
      [.rawSlot (.mk none []) true false]) [],
   .init "s" (.mk none []) [],
   .init "a" phantom2Box [],
   .explicitDrop "s",
   .echoLine "s dropped"]

/-- `MyBox<PrintOnDrop>` of `phantom3` (src/main.rs lines 378-407): as in
`phantom2` but with the `PhantomData<T>` structural-ownership marker on
the slot. -/
def phantom3Box : Value :=
  .mk (some [.print (.lit "MyBox dropped"), .dropSlot phantom2Pod true])
    [.rawSlot phantom2Pod true true]

/-- Configuration of `phantom3` (src/main.rs lines 409-415): the same
statements as `phantom2`, commented out in the source because with the
marker present the compiler rejects them. -/
def phantom3_cfg : List Stmt :=
  [.init "a" (.mk (some [.print (.lit "MyBox dropped"),
                         .dropSlot (.mk none []) true])
      [.rawSlot (.mk none []) true true]) [],
   .init "s" (.mk none []) [],
   .init "a" phantom3Box [],
   .explicitDrop "s",
   .echoLine "s dropped"]

/-- The scenario registry of the entry point (src/main.rs lines 418-434):
each name of the `main` function's invocation list mapped to the
statements its function body executes as written (bodies whose statements
are commented out run nothing). -/
def entry : String → Option (List Stmt)
  | "drop_order" => some drop_order_stmts
  | "drop_glue1" => some drop_glue1_stmts
  | "drop_glue2" => some drop_glue2_stmts
  | "drop_glue3" => some drop_glue3_stmts
  | "may_dangle1" => some may_dangle1_stmts
  | "may_dangle2" => some []
  | "may_dangle3" => some may_dangle3_stmts
  | "may_dangle4" => some may_dangle4_stmts
  | "may_dangle5" => some may_dangle5_stmts
  | "may_dangle6" => some may_dangle6_stmts
  | "may_dangle7" => some may_dangle7_stmts
  | "phantom1" => some phantom1_stmts
  | "phantom2" => some phantom2_stmts
  | "phantom3" => some []
  | _ => none

/-- Big-step execution relation of the scenario semantics: from state
`st`, running the statements `ss` and then leaving the scope emits the
trace `out`. -/
inductive Exec (oracle : String) :
    Env × List DRec → List Stmt → List String → Prop where
  | done : ∀ st, Exec oracle st [] (exitAll oracle st.1.reverse st.2).2
  | step : ∀ st s ss out, Exec oracle (stepStmt oracle st s).1 ss out →
      Exec oracle st (s :: ss) ((stepStmt oracle st s).2 ++ out)

/-- A full run of a scenario from the empty scope. -/
def RunsTo (oracle : String) (p : List Stmt) (t : List String) : Prop :=
  Exec oracle ([], []) p t

/-- The execution relation is a function of the start state, the
statements and the oracle. -/
theorem exec_deterministic (oracle : String) (st : Env × List DRec)
    (ss : List Stmt) (t1 t2 : List String)
    (h1 : Exec oracle st ss t1) (h2 : Exec oracle st ss t2) : t1 = t2 := by
  induction h1 generalizing t2 with
  | done st => cases h2; rfl
  | step st s ss out h ih =>
    cases h2 with
    | step _ _ _ out2 h2' => rw [ih out2 h2']

/-- The functional trace semantics is one run of the execution
relation. -/
theorem exec_runFrom (oracle : String) :
    ∀ (ss : List Stmt) (st : Env × List DRec),
      Exec oracle st ss (runFrom oracle st ss) := by
  intro ss
  induction ss with
  | nil => intro st; exact Exec.done st
  | cons s rest ih => intro st; exact Exec.step st s rest _ (ih _)

/-- Every scenario runs to the trace computed by `runProgram`. -/
theorem runsTo_runProgram (oracle : String) (p : List Stmt) :
    RunsTo oracle p (runProgram oracle p) :=
  exec_runFrom oracle p ([], [])

/-- Inserting a binding whose declaration position is below every element
of the list lands at the end. -/
theorem insertByDeclDesc_append (b : BindingB) (l : List BindingB)
    (h : ∀ x ∈ l, b.declPos < x.declPos) :
    insertByDeclDesc b l = l ++ [b] := by
  induction l with
  | nil => rfl
  | cons x xs ih =>
    rw [insertByDeclDesc,
      if_neg (Nat.not_le.mpr (h x (List.mem_cons_self x xs))),
      ih (fun y hy => h y (List.mem_cons_of_mem x hy))]
    rfl

/-- Sorting by descending declaration position reverses a list whose
declaration positions strictly increase. -/
theorem sortByDeclDesc_of_sorted (l : List BindingB)
    (h : l.Pairwise (fun x y => x.declPos < y.declPos)) :
    sortByDeclDesc l = l.reverse := by
  induction l with
  | nil => rfl
  | cons b bs ih =>
    rw [List.pairwise_cons] at h
    rw [sortByDeclDesc, ih h.2, insertByDeclDesc_append, List.reverse_cons]
    intro x hx
    exact h.1 x (List.mem_reverse.mp hx)

/-- A violating field found at an index makes the field scan report a
violation. -/
theorem fieldsViol_of_get (recs : List DRec) (i : Nat) (ex under : Bool)
    (fs : List Field) (k : Nat) (f : Field)
    (hf : fs.get? k = some f) (hv : fieldViol recs i ex under f = true) :
    fieldsViol recs i ex under fs = true := by
  induction fs generalizing k with
  | nil => simp at hf
  | cons g rest ih =>
    cases k with
    | zero =>
      rw [List.get?_cons_zero, Option.some_inj] at hf
      subst hf
      rw [fieldsViol, hv, Bool.true_or]
    | succ k =>
      rw [List.get?_cons_succ] at hf
      rw [fieldsViol, ih k hf, Bool.or_true]

/-- A violating record found at an index makes the record scan report a
violation. -/
theorem anyViolFrom_of_get (all : List DRec) (l : List DRec)
    (j i0 : Nat) (r : DRec) (hr : l.get? j = some r)
    (hv : nodeViol all (i0 + j) r.explicitD false r.val = true) :
    anyViolFrom all l i0 = true := by
  induction l generalizing j i0 with
  | nil => simp at hr
  | cons x rest ih =>
    cases j with
    | zero =>
      rw [List.get?_cons_zero, Option.some_inj] at hr
      subst hr
      rw [anyViolFrom]
      rw [Nat.add_zero] at hv
      rw [hv, Bool.true_or]
    | succ j =>
      rw [List.get?_cons_succ] at hr
      rw [anyViolFrom]
      have : i0 + (j + 1) = (i0 + 1) + j := by omega
      rw [this] at hv
      rw [ih j (i0 + 1) hr hv, Bool.or_true]

/-- C1: for every scope with bindings declared in order b1, ..., bn, the
automatic destruction order produced by `computeDestructionOrder` is
exactly bn, ..., b1, the reverse of declaration order, regardless of
initialization order; concretely, in the `drop_order` scenario (`a`
declared uninitialized, then `b = B()`, then `a = A()`) the emitted
destruction trace is `b`'s message then `a`'s message. -/
theorem drop_order_reverse_of_declaration :
    (∀ sc : List BindingB,
      sc.Pairwise (fun x y => x.declPos < y.declPos) →
      computeDestructionOrder sc = (sc.map BindingB.name).reverse)
    ∧ (∀ oracle, runProgram oracle drop_order_stmts =
        ["B is dropped first although its initialization is earlier than A",
         "A is dropped last because its declaration is the first"]) := by
  constructor
  · intro sc h
    rw [computeDestructionOrder, sortByDeclDesc_of_sorted sc h,
      List.map_reverse]
  · intro o
    rfl

/-- Witness for C1: the `drop_order` scope, with `a` declared at position
0 but initialized at position 2 and `b` declared at position 1 and
initialized at position 1, is destroyed `b` first, then `a`. -/
theorem drop_order_reverse_of_declaration_witness :
    computeDestructionOrder [⟨"a", 0, 2⟩, ⟨"b", 1, 1⟩] = ["b", "a"] :=
  drop_order_reverse_of_declaration.1 [⟨"a", 0, 2⟩, ⟨"b", 1, 1⟩] (by decide)

/-- C2: destroying a value with a custom destructor and owned fields f1,
f2 emits the custom destructor body first, then the full recursive
destruction of f1, then that of f2, in field declaration order; the glue
always follows the custom destructor logic.  Concretely this yields the
`drop_glue1` and `drop_glue3` traces, including the depth-first descent
into `B1(C1, C2)`. -/
theorem custom_dtor_then_glue_in_field_order :
    (∀ (destroyed : List String) (oracle : String) (acts : List Action)
      (f1 f2 : Value),
      dropEvents destroyed oracle (.mk (some acts) [.owned f1, .owned f2]) =
        actionsEvents destroyed oracle [.owned f1, .owned f2] acts ++
          dropEvents destroyed oracle f1 ++ dropEvents destroyed oracle f2)
    ∧ (∀ oracle, runProgram oracle drop_glue1_stmts =
        ["Drop for A called",
         "The following is the drop glue of A",
         "Drop for B1 called as part of the drop glue of A",
         "No drop glue for B1 since it has no field",
         "Drop for B2 called as part of the drop glue of A",
         "No drop glue for B2 since it has no field"])
    ∧ (∀ oracle, runProgram oracle drop_glue3_stmts =
        ["Drop for A called",
         "Drop for B1 as part of the drop glue of A",
         "because the ownership of b1 is transferred to A",
         "Drop for C1 as part of the drop glue of B1",
         "Drop for C1 as part of the drop glue of B1"]) := by
  refine ⟨?_, fun o => rfl, fun o => rfl⟩
  intro d o acts f1 f2
  simp [dropEvents, fieldsEvents, fieldEvents]

/-- C3: `checkValidity` returns Reject with the fixed reason whenever
some destruction record holds a value with a custom destructor and a
reference field without the opt-out whose referent is destroyed strictly
before that value's destructor runs. -/
theorem checkValidity_rejects_dangling_nonoptout (p : List Stmt)
    (i k : Nat) (nm : String) (ex : Bool) (acts : List Action)
    (fs : List Field) (target : String)
    (hrec : (execRecords p).get? i = some ⟨nm, .mk (some acts) fs, ex⟩)
    (hfield : fs.get? k = some (.refF target false))
    (hdangle : destroyedBefore (execRecords p) target i = true) :
    checkValidity p = .reject violReason := by
  have hnode :
      nodeViol (execRecords p) i ex false (.mk (some acts) fs) = true := by
    rw [nodeViol]
    apply fieldsViol_of_get _ _ _ _ _ k _ hfield
    simp [fieldViol, hdangle]
  have h := anyViolFrom_of_get (execRecords p) (execRecords p) i 0
    ⟨nm, .mk (some acts) fs, ex⟩ hrec (by simpa using hnode)
  simp only [checkValidity, h, if_true]

/-- Witness for C3: the `may_dangle2` configuration - `B<'a>(&'a A)` with
an empty `Drop` and no opt-out, where `a` is destroyed before `b` - is
Rejected. -/
theorem checkValidity_rejects_dangling_nonoptout_witness :
    checkValidity may_dangle2_cfg = .reject violReason :=
  checkValidity_rejects_dangling_nonoptout may_dangle2_cfg 1 0 "b" false []
    [.refF "a" false] "a" rfl rfl rfl

/-- C4: the opt-out suppresses rule 1 only for automatic destruction: the
`may_dangle3` configuration is Accepted, while the `may_dangle6`
configuration with explicit `drop` requests is Rejected (also when only
the referent is dropped explicitly); in general an opted-out reference
field of an automatically destroyed owner violates nothing unless its
referent was destroyed by an explicit request, and under an explicit
destruction of the owner the opted-out field is checked exactly like an
unannotated one. -/
theorem optout_suppresses_only_automatic :
    checkValidity may_dangle3_stmts = .accept
    ∧ checkValidity may_dangle6_cfg = .reject violReason
    ∧ checkValidity may_dangle6_cfgA = .reject violReason
    ∧ (∀ (recs : List DRec) (i : Nat) (target : String),
        destroyedExplicitlyBefore recs target i = false →
        fieldViol recs i false true (.refF target true) = false)
    ∧ (∀ (recs : List DRec) (i : Nat) (target : String),
        fieldViol recs i true true (.refF target true) =
          destroyedBefore recs target i) := by
  refine ⟨by decide, by decide, by decide, ?_, ?_⟩
  · intro recs i target h
    simp [fieldViol, h]
  · intro recs i target
    simp [fieldViol]

/-- Witness for C4: in the `may_dangle3` records, the opted-out reference
of `b` to the automatically destroyed `a` is not flagged. -/
theorem optout_suppresses_only_automatic_witness :
    fieldViol (execRecords may_dangle3_stmts) 1 false true
      (.refF "a" true) = false :=
  optout_suppresses_only_automatic.2.2.2.1
    (execRecords may_dangle3_stmts) 1 "a" (by decide)

/-- C5: the `phantom2` configuration (unmarked raw slot, opt-out, referent
invalidated by the caller before `MyBox` is destroyed) is Accepted but its
destructor invocation is flagged unsound-if-executed by
`simulateDangling`; the identical configuration with the
structural-ownership marker (`phantom3`) is instead Rejected by
`checkValidity`. -/
theorem mybox_optout_unsound_vs_marker_reject :
    checkValidity phantom2_stmts = .accept
    ∧ simulateDangling phantom2_stmts = [.unsoundIfExecuted "a"]
    ∧ checkValidity phantom3_cfg = .reject violReason :=
  ⟨by decide, by decide, by decide⟩

/-- Configuration family for C6: a binding `owner` holding a value with a
dangling reference field (its referent `t` is explicitly dropped first)
and an owned sub-value with its own dangling reference field; `od` is the
sub-value's optional custom destructor. -/
def c6Sub (od : Option (List Action)) : Value :=
  .mk od [.refF "t" false]

/-- The owner value of the C6 family: no custom destructor of its own. -/
def c6Owner (od : Option (List Action)) : Value :=
  .mk none [.refF "t" false, .owned (c6Sub od)]

/-- The C6 scenario: `t` is destroyed explicitly while `owner` still holds
references to it, then `owner` dies at scope exit. -/
def c6Prog (owner : Value) : List Stmt :=
  [.declare "owner", .init "t" (.mk none []) [], .init "owner" owner [],
   .explicitDrop "t"]

/-- C6: a configuration whose reference field's referent is destroyed
before its owner is Accepted when the owning value has no custom
destructor (trivial, glue-only destruction), rule 1 being skipped for that
value's own fields - but rule 1 still applies recursively to owned
sub-values that do have custom destructors, and with any custom destructor
on the sub-value the same configuration is Rejected.  The `may_dangle1`
scenario (dangling `&b` inside the trivially dropped `A`) is Accepted. -/
theorem trivial_drop_accepts_dangling :
    checkValidity (c6Prog (c6Owner none)) = .accept
    ∧ (∀ acts : List Action,
        checkValidity (c6Prog (c6Owner (some acts))) = .reject violReason)
    ∧ checkValidity may_dangle1_stmts = .accept := by
  refine ⟨by decide, fun acts => rfl, by decide⟩

/-- C7: a value with no custom destructor emits no destructor-start event
of its own - its events are exactly the glue events of its owned fields,
in field declaration order - and a value with no custom destructor and no
owned fields contributes no observable step; concretely the `may_dangle1`
scenario (all drops trivial) emits an empty trace. -/
theorem no_dtor_no_start_event :
    (∀ (destroyed : List String) (oracle : String) (fs : List Field),
      dropEvents destroyed oracle (.mk none fs) =
        fieldsEvents destroyed oracle fs)
    ∧ (∀ (destroyed : List String) (oracle : String) (v : Value)
        (fs : List Field),
        fieldsEvents destroyed oracle (.owned v :: fs) =
          dropEvents destroyed oracle v ++ fieldsEvents destroyed oracle fs)
    ∧ (∀ (destroyed : List String) (oracle : String),
        dropEvents destroyed oracle (.mk none []) = [])
    ∧ (∀ oracle, runProgram oracle may_dangle1_stmts = []) :=
  ⟨fun _ _ _ => rfl, fun _ _ _ _ => rfl, fun _ _ => rfl, fun _ => rfl⟩

/-- C8 counterexample: the trace of the `may_dangle5` scenario selected by
the entry point is not a function of the scenario alone - its destructor
prints the bit pattern read back through the already-freed referent, so
two runs over the same program graph whose freed memory reads back
differently emit different event lines. -/
theorem trace_depends_on_invalid_read :
    entry "may_dangle5" = some may_dangle5_stmts
    ∧ runProgram "0" may_dangle5_stmts ≠ runProgram "1" may_dangle5_stmts :=
  ⟨rfl, by decide⟩

/-- The scenarios of the entry point whose destructors never read
invalidated data: every scenario except `may_dangle5` and `phantom2`. -/
def oracleFreeNames : List String :=
  ["drop_order", "drop_glue1", "drop_glue2", "drop_glue3", "may_dangle1",
   "may_dangle2", "may_dangle3", "may_dangle4", "may_dangle6",
   "may_dangle7", "phantom1", "phantom3"]

/-- C8 (amended): the model is a deterministic structural walk - two runs
of the same scenario over the same program graph that read back the same
bit patterns through invalidated data emit exactly the same ordered event
lines; for every entry-point scenario except `may_dangle5` and `phantom2`
the trace is further independent of those bit patterns, and for the two
exceptions the number and order of events is still fixed, only the
content of the lines printed through invalidated data being
unspecified. -/
theorem trace_deterministic_given_memory :
    (∀ (oracle : String) (p : List Stmt) (t1 t2 : List String),
      RunsTo oracle p t1 → RunsTo oracle p t2 → t1 = t2)
    ∧ (∀ nm ∈ oracleFreeNames, ∀ (p : List Stmt) (o1 o2 : String),
        entry nm = some p → runProgram o1 p = runProgram o2 p)
    ∧ (∀ oracle, (runProgram oracle may_dangle5_stmts).length = 1)
    ∧ (∀ oracle, (runProgram oracle phantom2_stmts).length = 4) := by
  refine ⟨?_, ?_, fun o => rfl, fun o => rfl⟩
  · intro oracle p t1 t2 h1 h2
    exact exec_deterministic oracle ([], []) p t1 t2 h1 h2
  · intro nm hnm
    fin_cases hnm <;>
      · intro p o1 o2 hp
        injection hp with h
        subst h
        rfl

/-- Witness for C8: applying determinism to two runs of `drop_order`
pins its trace. -/
theorem trace_deterministic_given_memory_witness :
    (runProgram "g" drop_order_stmts =
      ["B is dropped first although its initialization is earlier than A",
       "A is dropped last because its declaration is the first"])
    ∧ runProgram "g" drop_glue1_stmts = runProgram "h" drop_glue1_stmts :=
  ⟨trace_deterministic_given_memory.1 "g" drop_order_stmts _ _
      (runsTo_runProgram "g" drop_order_stmts)
      (runsTo_runProgram "g" drop_order_stmts),
    trace_deterministic_given_memory.2.1 "drop_glue1" (by decide)
      drop_glue1_stmts "g" "h" rfl⟩

/-- C9: the unnamed temporary `A(&b1, B2())` of `drop_glue2` is destroyed
at the end of the statement that creates it, before any named binding of
the scope: all of the temporary's destruction events (its custom
destructor, then glue for its owned `B2` field) precede the destruction
events of the earlier-declared binding `b1`, and the destruction order is
the temporary first, `b1` second. -/
theorem temporary_destroyed_at_statement_end :
    (∀ oracle, runProgram oracle drop_glue2_stmts =
      ["Drop for A called",
       "Drop for B2 called as part of the drop glue of A"] ++
      ["Drop for B1 called NOT as part of the drop glue of A",
       "Instead, this is called because its owner b1 is dropped"])
    ∧ destructionOrder drop_glue2_stmts = ["tempA", "b1"] :=
  ⟨fun _ => rfl, by decide⟩

/-- C10: in `phantom1` the referent `s` is destroyed before the owner `a`,
yet the opt-out-annotated destructor of `MyBox` honors its obligation - it
only deallocates and performs no read through the dangling reference
stored in the slot - so `simulateDangling` raises no flag for the
scenario and `checkValidity` Accepts it. -/
theorem phantom1_obligation_honored :
    destructionOrder phantom1_stmts = ["s", "a"]
    ∧ simulateDangling phantom1_stmts = []
    ∧ checkValidity phantom1_stmts = .accept :=
  ⟨by decide, by decide, by decide⟩

end DropCheck
